import Mathlib

/-!
Verification development for the DD4hep layer-building excerpt of acts-core.

The development shallowly embeds `DD4hepLayerBuilder.cpp` (the three region
pipelines `negativeLayers` / `centralLayers` / `positiveLayers`, the recursive
sensitive-surface collector, the sensitive-surface factory and the transform
converter) and the compile-time predicate `any_of` from
`Core/include/ACTS/Utilities/detail/MPL/any_of.hpp`.

Real-valued quantities (C++ `double`) are modelled as exact rationals `ℚ`;
every claim under study is about the algebraic and structural behaviour of the
code (swaps, sign conventions, which field is written with which expression),
not about floating-point rounding, so exact arithmetic is faithful.
-/

namespace Acts

/-- Modelled from the spec: the fixed length-unit conversion factor
(`units::_cm`); the header defining it is outside this excerpt.  The spec only
calls it a fixed scale; no claim depends on the value, which we fix at the
conventional 10 (internal unit = mm). -/
def unitsCm : ℚ := 10

/-- The C `fabs` / `std::abs` on our exact reals. -/
def fabs (x : ℚ) : ℚ := if x < 0 then -x else x

/-- Exact rational value of the C `double` constant `M_PI`
(3.14159265358979311599…, i.e. 884279719003555 / 2^48).  Used only inside the
material bin utilities. -/
def mPI : ℚ := 884279719003555 / 281474976710656

/-- A 3-vector of exact rationals, modelling `Acts::Vector3D`. -/
structure Vector3D where
  x : ℚ
  y : ℚ
  z : ℚ
deriving DecidableEq, Repr

def Vector3D.add (a b : Vector3D) : Vector3D := ⟨a.x + b.x, a.y + b.y, a.z + b.z⟩

def Vector3D.sub (a b : Vector3D) : Vector3D := ⟨a.x - b.x, a.y - b.y, a.z - b.z⟩

def Vector3D.smul (a : Vector3D) (s : ℚ) : Vector3D := ⟨a.x * s, a.y * s, a.z * s⟩

/-- A rigid transform, modelling `Acts::Transform3D`: the three rotation
columns plus the translation. -/
structure Transform3D where
  colX : Vector3D
  colY : Vector3D
  colZ : Vector3D
  translation : Vector3D
deriving DecidableEq, Repr

/-- Replace the translation part of a transform, keeping the rotation — this is
what `Transform3D(transform->rotation(), pos)` builds in the source. -/
def Transform3D.withTranslation (t : Transform3D) (p : Vector3D) : Transform3D :=
  { t with translation := p }

/-- A native ROOT transform (`TGeoMatrix`): a 3x3 rotation stored row-major as
`rotation[0..8]` plus a translation `translation[0..2]` in native (cm) units. -/
structure TGeoMatrix where
  r0 : ℚ
  r1 : ℚ
  r2 : ℚ
  r3 : ℚ
  r4 : ℚ
  r5 : ℚ
  r6 : ℚ
  r7 : ℚ
  r8 : ℚ
  t0 : ℚ
  t1 : ℚ
  t2 : ℚ
deriving DecidableEq, Repr

/-- Embedding of `DD4hepLayerBuilder::convertTransform`: the rotation columns
are read off the row-major native matrix (`(r0,r3,r6)`, `(r1,r4,r7)`,
`(r2,r5,r8)`) and the translation is scaled by `units::_cm`. -/
def convertTransform (g : TGeoMatrix) : Transform3D :=
  { colX := ⟨g.r0, g.r3, g.r6⟩
    colY := ⟨g.r1, g.r4, g.r7⟩
    colZ := ⟨g.r2, g.r5, g.r8⟩
    translation := ⟨g.t0 * unitsCm, g.t1 * unitsCm, g.t2 * unitsCm⟩ }

/-- The material position enum `Acts::LayerMaterialPos` (inner / central /
outer). -/
inductive LayerMaterialPos where
  | inner
  | central
  | outer
deriving DecidableEq, Repr

/-- Bin boundary option of `Acts::BinUtility` axes; the source uses
`Acts::open` and `Acts::closed` (renamed here because `open` is a Lean
keyword). -/
inductive BinOption where
  | openBin
  | closedBin
deriving DecidableEq, Repr

/-- Binning value of `Acts::BinUtility` axes used in this excerpt. -/
inductive BinValue where
  | binPhi
  | binR
  | binZ
deriving DecidableEq, Repr

/-- One axis of an `Acts::BinUtility`: bin count, range, boundary option,
binning value and the optional transform handed to the constructor. -/
structure BinningData where
  bins : Nat
  min : ℚ
  max : ℚ
  option : BinOption
  value : BinValue
  transform : Option Transform3D
deriving DecidableEq, Repr

/-- An `Acts::BinUtility` is the ordered list of its axes (the source composes
two axes with `+=`). -/
abbrev BinUtility := List BinningData

/-- A `SurfaceMaterialProxy`: a marker carrying only its bin utility. -/
structure SurfaceMaterialProxy where
  binUtility : BinUtility
deriving DecidableEq, Repr

/-- `Acts::BinningType` hints (`equidistant` / `arbitrary`) handed to the
delegated layer creator; opaque to this excerpt. -/
inductive BinningType where
  | equidistant
  | arbitrary
deriving DecidableEq, Repr

/-- Native `dd4hep::Material` of a node volume: name plus the raw numeric
properties read by the pipelines. -/
structure DDMaterial where
  name : String
  radLength : ℚ
  intLength : ℚ
  A : ℚ
  Z : ℚ
  density : ℚ
deriving DecidableEq, Repr

/-- `Acts::Material` as constructed by the pipelines (all fields already
unit-converted). -/
structure Material where
  radLength : ℚ
  intLength : ℚ
  A : ℚ
  Z : ℚ
  density : ℚ
deriving DecidableEq, Repr

/-- `Acts::MaterialProperties`: a material combined with a thickness. -/
structure MaterialProperties where
  material : Material
  thickness : ℚ
deriving DecidableEq, Repr

/-- `Acts::HomogeneousSurfaceMaterial`, wrapping its material properties. -/
structure HomogeneousSurfaceMaterial where
  props : MaterialProperties
deriving DecidableEq, Repr

/-- ASCII lowercase code of a character (identity outside the uppercase
letters), modelling the per-character `std::tolower` that `boost::iequals`
applies. -/
def charLower (c : Char) : Nat :=
  if 65 ≤ c.toNat ∧ c.toNat ≤ 90 then c.toNat + 32 else c.toNat

/-- Case-insensitive string equality, modelling `boost::iequals` (equal
lengths and per-character equality after `std::tolower`; material names are
ASCII). -/
def iequals (a b : String) : Bool :=
  a.data.map charLower == b.data.map charLower

/-- Embedding of the bulk-material resolution block that appears verbatim at
the end of all three region pipelines: a case-insensitive `"vacuum"` name
yields no material; any other name yields a homogeneous surface material whose
properties are unit-converted and whose thickness is `fabs(pl.maxR - pl.minR)`
— the radial span, in the disc pipelines as well as the cylinder pipeline. -/
def resolveMaterial (mat : DDMaterial) (plMinR plMaxR : ℚ) :
    Option HomogeneousSurfaceMaterial :=
  if iequals mat.name "vacuum" then none
  else
    some ⟨⟨⟨mat.radLength * unitsCm, mat.intLength * unitsCm, mat.A, mat.Z,
      mat.density / unitsCm ^ 3⟩, fabs (plMaxR - plMinR)⟩⟩

/-- Opaque marker for the surface material a node Extension may hand to the
sensitive-surface factory. -/
structure ExtMaterial where
  id : Nat
deriving DecidableEq, Repr

/-- Opaque marker for a (possibly shared) digitization module descriptor. -/
structure DigiModule where
  id : Nat
deriving DecidableEq, Repr

/-- The `Acts::IActsExtension` capability of a node, with the accessors the
pipelines read: axes string, explicit-envelope flag and margins, material bin
counts, material position, support-material flag, and the optional surface
material and digitization module used by the sensitive-surface factory. -/
structure Extension where
  axes : String
  buildEnvelope : Bool
  envelopeR : ℚ
  envelopeZ : ℚ
  materialBins : Nat × Nat
  layerMaterialPosition : LayerMaterialPos
  hasSupportMaterial : Bool
  material : Option ExtMaterial
  digitizationModule : Option DigiModule
deriving DecidableEq, Repr

/-- Native shape of a node volume as the pipelines see it: a `TGeoTubeSeg`
with its bounds in native units, some other non-null shape (the failing
`dynamic_cast` case), or a null shape pointer. -/
inductive ShapeOpt where
  | tube (rMin rMax dz : ℚ)
  | nonTube
  | null
deriving DecidableEq, Repr

/-- A `dd4hep::DetElement` as read by this excerpt: name, sensitivity flag of
its volume, bulk material, native shape, native world transform, optional
Extension, and the ordered child elements. -/
inductive DetElement where
  | mk (name : String) (sensitive : Bool) (material : DDMaterial)
      (shape : ShapeOpt) (trans : TGeoMatrix) (ext : Option Extension)
      (children : List DetElement)

def DetElement.name : DetElement → String
  | .mk n _ _ _ _ _ _ => n

def DetElement.sensitive : DetElement → Bool
  | .mk _ s _ _ _ _ _ => s

def DetElement.material : DetElement → DDMaterial
  | .mk _ _ m _ _ _ _ => m

def DetElement.shape : DetElement → ShapeOpt
  | .mk _ _ _ sh _ _ _ => sh

def DetElement.trans : DetElement → TGeoMatrix
  | .mk _ _ _ _ t _ _ => t

def DetElement.ext : DetElement → Option Extension
  | .mk _ _ _ _ _ e _ => e

def DetElement.children : DetElement → List DetElement
  | .mk _ _ _ _ _ _ cs => cs

/-- The persistent sensitive surface returned by
`DD4hepLayerBuilder::createSensitiveSurface`: the surface of the freshly built
`DD4hepDetElement(detElement, axes, units::_cm, isDisc, material,
buildDigitizationModules, digiModule)`. -/
structure SensitiveSurface where
  elementName : String
  axes : String
  unitScale : ℚ
  isDisc : Bool
  material : Option ExtMaterial
  buildDigitizationModules : Bool
  digitizationModule : Option DigiModule
deriving DecidableEq, Repr

/-- Embedding of `DD4hepLayerBuilder::createSensitiveSurface`: the Extension
lookup is guarded (a missing Extension degrades to null material and null
digitization module), then the detector element and its surface are built. -/
def createSensitiveSurface (buildDigitizationModules : Bool) (d : DetElement)
    (isDisc : Bool) (axes : String) : SensitiveSurface :=
  let material := match d.ext with
    | some e => e.material
    | none => none
  let digiModule := match d.ext with
    | some e => e.digitizationModule
    | none => none
  { elementName := d.name
    axes := axes
    unitScale := unitsCm
    isDisc := isDisc
    material := material
    buildDigitizationModules := buildDigitizationModules
    digitizationModule := digiModule }

mutual

/-- Embedding of `DD4hepLayerBuilder::collectSensitive`: walk the children of
a node in order; for each child flagged sensitive append its sensitive surface
(with `isDisc = false`), then recurse into the child regardless of its
sensitivity. -/
def collectSensitive (buildDigi : Bool) (d : DetElement) (axes : String) :
    List SensitiveSurface :=
  match d with
  | .mk _ _ _ _ _ _ children => collectSensitiveList buildDigi children axes

/-- The loop body of `collectSensitive` over a child list. -/
def collectSensitiveList (buildDigi : Bool) (l : List DetElement)
    (axes : String) : List SensitiveSurface :=
  match l with
  | [] => []
  | c :: rest =>
    (if c.sensitive then [createSensitiveSurface buildDigi c false axes] else [])
      ++ collectSensitive buildDigi c axes
      ++ collectSensitiveList buildDigi rest axes

end

mutual

/-- All proper descendants of a node in depth-first, native child order
(statement helper for the collector claim). -/
def descendants (d : DetElement) : List DetElement :=
  match d with
  | .mk _ _ _ _ _ _ children => descendantsList children

/-- Depth-first flattening of a forest: each root followed by its
descendants. -/
def descendantsList (l : List DetElement) : List DetElement :=
  match l with
  | [] => []
  | c :: rest => c :: descendants c ++ descendantsList rest

end

/-- `Acts::ProtoLayer`: radial and longitudinal extents plus the padding pairs
`envR` and `envZ`. -/
structure ProtoLayer where
  minR : ℚ
  maxR : ℚ
  minZ : ℚ
  maxZ : ℚ
  envR : ℚ × ℚ
  envZ : ℚ × ℚ
deriving DecidableEq, Repr

/-- Failure outcomes of a region pipeline invocation.

`undefinedBehaviour` models the wrong-shape path: when the node has a non-null
shape that is not a `TGeoTubeSeg`, the source only emits an `ACTS_ERROR` log
(a non-throwing macro) and then unconditionally dereferences the null result
of the `dynamic_cast` (`tube->GetRmin()`), which is undefined behaviour in
C++, not a designed abort.  The embedding represents that undefined
dereference as this distinguished outcome, kept apart from the genuinely
thrown `logicError` (the `std::logic_error` raised when the node has no shape
at all), and from `missingExtension` (the unguarded dd4hep extension lookup,
whose throwing behaviour lives outside this excerpt and is modelled from the
spec: absence of the Extension at pipeline stage is a contract violation
surfaced as an aborting error). -/
inductive PipelineError where
  | missingExtension
  | undefinedBehaviour
  | logicError (msg : String)
deriving DecidableEq, Repr

/-- The unguarded `detElement.extension<Acts::IActsExtension>()` call at the
head of each region pipeline (see the doc of `PipelineError`). -/
def getExtension (d : DetElement) : Except PipelineError Extension :=
  match d.ext with
  | some e => Except.ok e
  | none => Except.error PipelineError.missingExtension

/-- The message of the `std::logic_error` thrown by every region pipeline when
a node has neither a shape nor an explicit envelope. -/
def noShapeMsg (name : String) : String :=
  "Layer DetElement: " ++ name
    ++ " has neither a shape nor tolerances for envelopes added to its extension. Please check your detector constructor!"

/-- The raw projected longitudinal extent of a disc node, before the
corrective swap: `zMin = (translation - rotation.col(2) * dz * _cm).z` and
`zMax = (translation + rotation.col(2) * dz * _cm).z` (the duplicated block of
`negativeLayers` and `positiveLayers`). -/
def discZRaw (t : Transform3D) (dz : ℚ) : ℚ × ℚ :=
  ((t.translation.sub (t.colZ.smul (dz * unitsCm))).z,
   (t.translation.add (t.colZ.smul (dz * unitsCm))).z)

/-- The projected longitudinal extent after the source's corrective swap
(`if (zMin > zMax) std::swap(zMin, zMax)`). -/
def discZExtent (t : Transform3D) (dz : ℚ) : ℚ × ℚ :=
  let raw := discZRaw t dz
  if raw.1 > raw.2 then (raw.2, raw.1) else raw

/-- Embedding of the proto-layer / envelope block of the disc pipelines
(`negativeLayers` lines 82–125, textually repeated in `positiveLayers` lines
504–546): explicit envelope overrides the padding; otherwise the shape must be
a tube segment, whose converted bounds either replace the extents (no
sensitive surfaces) or set the padding to the absolute shape/surface
differences. -/
def discEnvelope (ext : Extension) (shape : ShapeOpt) (t : Transform3D)
    (surfacesEmpty : Bool) (pl0 : ProtoLayer) (name : String) :
    Except PipelineError ProtoLayer :=
  if ext.buildEnvelope then
    Except.ok { pl0 with
      envR := (ext.envelopeR, ext.envelopeR)
      envZ := (ext.envelopeZ, ext.envelopeZ) }
  else
    match shape with
    | ShapeOpt.tube rMinN rMaxN dzN =>
      let rMin := rMinN * unitsCm
      let rMax := rMaxN * unitsCm
      let zExt := discZExtent t dzN
      if surfacesEmpty then
        Except.ok { minR := rMin, maxR := rMax, minZ := zExt.1,
                    maxZ := zExt.2, envR := (0, 0), envZ := (0, 0) }
      else
        Except.ok { pl0 with
          envZ := (fabs (zExt.1 - pl0.minZ), fabs (zExt.2 - pl0.maxZ))
          envR := (fabs (rMin - pl0.minR), fabs (rMax - pl0.maxR)) }
    | ShapeOpt.nonTube => Except.error PipelineError.undefinedBehaviour
    | ShapeOpt.null => Except.error (PipelineError.logicError (noShapeMsg name))

/-- Embedding of the proto-layer / envelope block of `centralLayers` (lines
300–335): as `discEnvelope`, but the longitudinal extent is `±dz`
directly. -/
def centralEnvelope (ext : Extension) (shape : ShapeOpt)
    (surfacesEmpty : Bool) (pl0 : ProtoLayer) (name : String) :
    Except PipelineError ProtoLayer :=
  if ext.buildEnvelope then
    Except.ok { pl0 with
      envR := (ext.envelopeR, ext.envelopeR)
      envZ := (ext.envelopeZ, ext.envelopeZ) }
  else
    match shape with
    | ShapeOpt.tube rMinN rMaxN dzN =>
      let rMin := rMinN * unitsCm
      let rMax := rMaxN * unitsCm
      let dz := dzN * unitsCm
      if surfacesEmpty then
        Except.ok { minR := rMin, maxR := rMax, minZ := -dz,
                    maxZ := dz, envR := (0, 0), envZ := (0, 0) }
      else
        Except.ok { pl0 with
          envZ := (fabs (-dz - pl0.minZ), fabs (dz - pl0.maxZ))
          envR := (fabs (rMin - pl0.minR), fabs (rMax - pl0.maxR)) }
    | ShapeOpt.nonTube => Except.error PipelineError.undefinedBehaviour
    | ShapeOpt.null => Except.error (PipelineError.logicError (noShapeMsg name))

/-- The cylinder-pipeline half-length: `double halfZ = (pl.minZ - pl.maxZ) *
0.5;` (`centralLayers` line 337) — note the sign. -/
def centralHalfZ (pl : ProtoLayer) : ℚ := (pl.minZ - pl.maxZ) * 0.5

/-- A boundary (approach) surface: a disc or a cylinder with its transform,
bounds, and the optional material proxy attached to it. -/
inductive ApproachSurface where
  | disc (transform : Transform3D) (rMin rMax : ℚ)
      (material : Option SurfaceMaterialProxy)
  | cylinder (transform : Transform3D) (r halfLenZ : ℚ)
      (material : Option SurfaceMaterialProxy)
deriving DecidableEq, Repr

def ApproachSurface.material : ApproachSurface → Option SurfaceMaterialProxy
  | .disc _ _ _ m => m
  | .cylinder _ _ _ m => m

def ApproachSurface.surfTransform : ApproachSurface → Transform3D
  | .disc t _ _ _ => t
  | .cylinder t _ _ _ => t

def ApproachSurface.cylRadius : ApproachSurface → Option ℚ
  | .cylinder _ r _ _ => some r
  | .disc _ _ _ _ => none

def ApproachSurface.cylHalfLength : ApproachSurface → Option ℚ
  | .cylinder _ _ h _ => some h
  | .disc _ _ _ _ => none

/-- A `GenericApproachDescriptor` owning its boundary surfaces — ownership is
modelled as containment of the full surface list. -/
structure ApproachDescriptor where
  surfaces : List ApproachSurface
deriving DecidableEq, Repr

/-- The three disc boundary surfaces of the support-material block shared
(textually duplicated) by `negativeLayers` (lines 137–197) and
`positiveLayers` (lines 558–618): the bin utility (closed phi axis composed
with an open radial axis), the proxy, the inner/outer positions offset by half
the layer thickness along the rotated z-axis with a corrective swap, and the
material proxy attached to exactly the surface selected by the position enum.
Returned as (innerBoundary, outerBoundary, centralSurface). -/
def discApproachSurfaces (ext : Extension) (pl : ProtoLayer)
    (t : Transform3D) : ApproachSurface × ApproachSurface × ApproachSurface :=
  let bins1 := ext.materialBins.1
  let bins2 := ext.materialBins.2
  let materialBinUtil : BinUtility :=
    [⟨bins1, -mPI, mPI, BinOption.closedBin, BinValue.binPhi, none⟩,
     ⟨bins2, pl.minR, pl.maxR, BinOption.openBin, BinValue.binR, some t⟩]
  let materialProxy : SurfaceMaterialProxy := ⟨materialBinUtil⟩
  let layerPos := ext.layerMaterialPosition
  let layerThickness := fabs (pl.minZ - pl.maxZ) + pl.envZ.1 + pl.envZ.2
  let innerPos := t.translation.sub (t.colZ.smul (layerThickness * 0.5))
  let outerPos := t.translation.add (t.colZ.smul (layerThickness * 0.5))
  let posPair := if innerPos.z > outerPos.z then (outerPos, innerPos)
    else (innerPos, outerPos)
  let innerBoundary := ApproachSurface.disc (t.withTranslation posPair.1)
    pl.minR pl.maxR
    (if layerPos = LayerMaterialPos.inner then some materialProxy else none)
  let outerBoundary := ApproachSurface.disc (t.withTranslation posPair.2)
    pl.minR pl.maxR
    (if layerPos = LayerMaterialPos.outer then some materialProxy else none)
  let centralSurface := ApproachSurface.disc t pl.minR pl.maxR
    (if layerPos = LayerMaterialPos.central then some materialProxy else none)
  (innerBoundary, outerBoundary, centralSurface)

/-- The approach descriptor of the negative disc pipeline: the surfaces are
appended in the order inner, outer, central (`negativeLayers` lines
200–202). -/
def negDiscApproach (ext : Extension) (pl : ProtoLayer) (t : Transform3D) :
    ApproachDescriptor :=
  let s := discApproachSurfaces ext pl t
  ⟨[s.1, s.2.1, s.2.2]⟩

/-- The approach descriptor of the positive disc pipeline: the surfaces are
appended in the order inner, central, outer (`positiveLayers` lines
620–622). -/
def posDiscApproach (ext : Extension) (pl : ProtoLayer) (t : Transform3D) :
    ApproachDescriptor :=
  let s := discApproachSurfaces ext pl t
  ⟨[s.1, s.2.2, s.2.1]⟩

/-- The support-material block of `centralLayers` (lines 350–408): three
concentric cylinder boundary surfaces at `pl.minR`, `(pl.minR + pl.maxR) *
0.5` and `pl.maxR`, all with half-length `centralHalfZ pl` and the layer
transform; the bin utility composes a closed phi axis with an open
longitudinal axis over `(-halfZ, halfZ)`; the proxy is attached to exactly the
surface selected by the position enum; the descriptor collects the surfaces in
the order inner, central, outer (lines 400–402). -/
def centralApproach (ext : Extension) (pl : ProtoLayer) (t : Transform3D) :
    ApproachDescriptor :=
  let halfZ := centralHalfZ pl
  let innerR := pl.minR
  let outerR := pl.maxR
  let centralR := (pl.minR + pl.maxR) * 0.5
  let bins1 := ext.materialBins.1
  let bins2 := ext.materialBins.2
  let materialBinUtil : BinUtility :=
    [⟨bins1, -mPI, mPI, BinOption.closedBin, BinValue.binPhi, none⟩,
     ⟨bins2, -halfZ, halfZ, BinOption.openBin, BinValue.binZ, some t⟩]
  let materialProxy : SurfaceMaterialProxy := ⟨materialBinUtil⟩
  let layerPos := ext.layerMaterialPosition
  let innerBoundary := ApproachSurface.cylinder t innerR halfZ
    (if layerPos = LayerMaterialPos.inner then some materialProxy else none)
  let outerBoundary := ApproachSurface.cylinder t outerR halfZ
    (if layerPos = LayerMaterialPos.outer then some materialProxy else none)
  let centralSurface := ApproachSurface.cylinder t centralR halfZ
    (if layerPos = LayerMaterialPos.central then some materialProxy else none)
  ⟨[innerBoundary, centralSurface, outerBoundary]⟩

/-- Modelled from the spec: the default arguments of
`createSensitiveSurface` live in a header outside this excerpt (§4.3 only
names an axis-convention string and a disc/cylinder shape hint).  The region
pipelines call the factory with these defaults for the layer node itself; no
claim depends on the concrete values. -/
def defaultAxes : String := "XYZ"

/-- Modelled from the spec: default disc/cylinder hint of the factory (see
`defaultAxes`); the cylinder pipeline calls the factory without the hint. -/
def defaultIsDisc : Bool := false

/-- The construction data of a produced layer: either built directly from the
node's own sensitive surface (`DiscLayer::create` / `CylinderLayer::create`)
or delegated to the external `LayerCreator` collaborator with the collected
surfaces, binning hints, proto layer, transform and approach descriptor. -/
inductive LayerConstruction where
  | sensitiveDisc (transform : Transform3D) (rMin rMax : ℚ)
      (surf : SensitiveSurface) (thickness : ℚ)
      (approach : Option ApproachDescriptor)
  | delegatedDisc (surfaces : List SensitiveSurface)
      (bTypeR bTypePhi : BinningType) (pl : ProtoLayer)
      (transform : Transform3D) (approach : Option ApproachDescriptor)
  | sensitiveCylinder (transform : Transform3D) (layerR halfZ thickness : ℚ)
      (surf : SensitiveSurface) (approach : Option ApproachDescriptor)
  | delegatedCylinder (surfaces : List SensitiveSurface)
      (bTypePhi bTypeZ : BinningType) (pl : ProtoLayer)
      (transform : Transform3D) (approach : Option ApproachDescriptor)
deriving DecidableEq, Repr

/-- A produced layer: its construction data plus the bulk surface material
written onto its surface representation after construction (step 7 of the
pipeline), which may be null. -/
structure Layer where
  construction : LayerConstruction
  surfaceMaterial : Option HomogeneousSurfaceMaterial
deriving DecidableEq, Repr

/-- The approach descriptor held inside a layer construction. -/
def LayerConstruction.approach : LayerConstruction → Option ApproachDescriptor
  | .sensitiveDisc _ _ _ _ _ a => a
  | .delegatedDisc _ _ _ _ _ a => a
  | .sensitiveCylinder _ _ _ _ _ a => a
  | .delegatedCylinder _ _ _ _ _ a => a

/-- Apply a function to the approach descriptor of a layer construction,
keeping everything else. -/
def LayerConstruction.mapApproach (f : ApproachDescriptor → ApproachDescriptor) :
    LayerConstruction → LayerConstruction
  | .sensitiveDisc t r0 r1 s th a => .sensitiveDisc t r0 r1 s th (a.map f)
  | .delegatedDisc ss b0 b1 pl t a => .delegatedDisc ss b0 b1 pl t (a.map f)
  | .sensitiveCylinder t r h th s a => .sensitiveCylinder t r h th s (a.map f)
  | .delegatedCylinder ss b0 b1 pl t a => .delegatedCylinder ss b0 b1 pl t (a.map f)

/-- Apply a function to the approach descriptor of a layer. -/
def Layer.mapApproach (f : ApproachDescriptor → ApproachDescriptor)
    (l : Layer) : Layer :=
  { l with construction := l.construction.mapApproach f }

/-- Swap the last two surfaces of a (three-element) approach descriptor. -/
def ApproachDescriptor.swapLastTwo : ApproachDescriptor → ApproachDescriptor
  | ⟨[a, b, c]⟩ => ⟨[a, c, b]⟩
  | ⟨l⟩ => ⟨l⟩

/-- The `DD4hepLayerBuilder::Config` fields this excerpt reads, plus the two
external collaborators as opaque parameters: `protoFromSurfaces` stands for
the `ProtoLayer` constructor over a collected surface list (repository code
outside this excerpt) — the pipelines only require that the surface-derived
extents come from it. -/
structure Config where
  negativeLayers : List DetElement
  centralLayers : List DetElement
  positiveLayers : List DetElement
  bTypeR : BinningType
  bTypePhi : BinningType
  bTypeZ : BinningType
  buildDigitizationModules : Bool
  protoFromSurfaces : List SensitiveSurface → ProtoLayer

/-- The per-node body of the `negativeLayers` loop: extension lookup, surface
collection, transform conversion, envelope computation, optional approach
descriptor (order inner, outer, central), layer construction (sensitive or
delegated disc), and bulk-material resolution. -/
def negDiscStep (cfg : Config) (d : DetElement) : Except PipelineError Layer :=
  match getExtension d with
  | Except.error e => Except.error e
  | Except.ok ext =>
    let axes := ext.axes
    let layerSurfaces := collectSensitive cfg.buildDigitizationModules d axes
    let transform := convertTransform d.trans
    let pl0 := cfg.protoFromSurfaces layerSurfaces
    match discEnvelope ext d.shape transform layerSurfaces.isEmpty pl0 d.name with
    | Except.error e => Except.error e
    | Except.ok pl =>
      let approachDescriptor :=
        if ext.hasSupportMaterial then some (negDiscApproach ext pl transform)
        else none
      let construction :=
        if d.sensitive then
          LayerConstruction.sensitiveDisc transform pl.minR pl.maxR
            (createSensitiveSurface cfg.buildDigitizationModules d true defaultAxes)
            (fabs (pl.maxZ - pl.minZ)) approachDescriptor
        else
          LayerConstruction.delegatedDisc layerSurfaces cfg.bTypeR cfg.bTypePhi
            pl transform approachDescriptor
      Except.ok ⟨construction, resolveMaterial d.material pl.minR pl.maxR⟩

/-- The per-node body of the `positiveLayers` loop — textually the same as
`negDiscStep` in the source except that the approach surfaces are appended in
the order inner, central, outer. -/
def posDiscStep (cfg : Config) (d : DetElement) : Except PipelineError Layer :=
  match getExtension d with
  | Except.error e => Except.error e
  | Except.ok ext =>
    let axes := ext.axes
    let layerSurfaces := collectSensitive cfg.buildDigitizationModules d axes
    let transform := convertTransform d.trans
    let pl0 := cfg.protoFromSurfaces layerSurfaces
    match discEnvelope ext d.shape transform layerSurfaces.isEmpty pl0 d.name with
    | Except.error e => Except.error e
    | Except.ok pl =>
      let approachDescriptor :=
        if ext.hasSupportMaterial then some (posDiscApproach ext pl transform)
        else none
      let construction :=
        if d.sensitive then
          LayerConstruction.sensitiveDisc transform pl.minR pl.maxR
            (createSensitiveSurface cfg.buildDigitizationModules d true defaultAxes)
            (fabs (pl.maxZ - pl.minZ)) approachDescriptor
        else
          LayerConstruction.delegatedDisc layerSurfaces cfg.bTypeR cfg.bTypePhi
            pl transform approachDescriptor
      Except.ok ⟨construction, resolveMaterial d.material pl.minR pl.maxR⟩

/-- The per-node body of the `centralLayers` loop: as the disc steps but with
the cylinder envelope, the cylinder approach descriptor, cylinder layer
construction (mean radius, `centralHalfZ`, radial-span thickness) and the
phi/z binning hints for the delegated path. -/
def centralStep (cfg : Config) (d : DetElement) : Except PipelineError Layer :=
  match getExtension d with
  | Except.error e => Except.error e
  | Except.ok ext =>
    let axes := ext.axes
    let layerSurfaces := collectSensitive cfg.buildDigitizationModules d axes
    let transform := convertTransform d.trans
    let pl0 := cfg.protoFromSurfaces layerSurfaces
    match centralEnvelope ext d.shape layerSurfaces.isEmpty pl0 d.name with
    | Except.error e => Except.error e
    | Except.ok pl =>
      let halfZ := centralHalfZ pl
      let approachDescriptor :=
        if ext.hasSupportMaterial then some (centralApproach ext pl transform)
        else none
      let construction :=
        if d.sensitive then
          LayerConstruction.sensitiveCylinder transform
            ((pl.minR + pl.maxR) * 0.5) halfZ (fabs (pl.maxR - pl.minR))
            (createSensitiveSurface cfg.buildDigitizationModules d defaultIsDisc defaultAxes)
            approachDescriptor
        else
          LayerConstruction.delegatedCylinder layerSurfaces cfg.bTypePhi
            cfg.bTypeZ pl transform approachDescriptor
      Except.ok ⟨construction, resolveMaterial d.material pl.minR pl.maxR⟩

/-- The proto layer a disc-pipeline node ends up with (the pipeline prefix up
to and including the envelope computation). -/
def discPlOf (cfg : Config) (d : DetElement) : Except PipelineError ProtoLayer :=
  match getExtension d with
  | Except.error e => Except.error e
  | Except.ok ext =>
    let layerSurfaces := collectSensitive cfg.buildDigitizationModules d ext.axes
    discEnvelope ext d.shape (convertTransform d.trans) layerSurfaces.isEmpty
      (cfg.protoFromSurfaces layerSurfaces) d.name

/-- The proto layer a central-pipeline node ends up with. -/
def centralPlOf (cfg : Config) (d : DetElement) :
    Except PipelineError ProtoLayer :=
  match getExtension d with
  | Except.error e => Except.error e
  | Except.ok ext =>
    let layerSurfaces := collectSensitive cfg.buildDigitizationModules d ext.axes
    centralEnvelope ext d.shape layerSurfaces.isEmpty
      (cfg.protoFromSurfaces layerSurfaces) d.name

/-- `DD4hepLayerBuilder::negativeLayers`: process the configured node list in
order, appending one layer per node; an exception propagates immediately,
discarding the partially built local vector (`List.mapM` in the `Except`
monad). -/
def negativeLayersRun (cfg : Config) : Except PipelineError (List Layer) :=
  cfg.negativeLayers.mapM (negDiscStep cfg)

/-- `DD4hepLayerBuilder::centralLayers` (see `negativeLayersRun`). -/
def centralLayersRun (cfg : Config) : Except PipelineError (List Layer) :=
  cfg.centralLayers.mapM (centralStep cfg)

/-- `DD4hepLayerBuilder::positiveLayers` (see `negativeLayersRun`). -/
def positiveLayersRun (cfg : Config) : Except PipelineError (List Layer) :=
  cfg.positiveLayers.mapM (posDiscStep cfg)

namespace detail

/-- Embedding of the compile-time predicate `Acts::detail::any_of` over its
boolean template-parameter pack, read as a list: the empty pack derives
`std::false_type`; a pack starting with `true` derives `std::true_type`; a
pack starting with `false` defers to the rest. -/
def any_of : List Bool → Bool
  | [] => false
  | true :: _ => true
  | false :: others => any_of others

end detail

/-- Family tag of a boundary surface (statement helper). -/
def ApproachSurface.familyIsDisc : ApproachSurface → Bool
  | .disc _ _ _ _ => true
  | .cylinder _ _ _ _ => false

/-- Which of the boundary surfaces of a descriptor carry a material proxy
(statement helper). -/
def materialFlags (ad : ApproachDescriptor) : List Bool :=
  ad.surfaces.map (fun s => s.material.isSome)

/-- Thickness recorded in a layer's resolved bulk material, if any (statement
helper). -/
def layerMatThickness (l : Layer) : Option ℚ :=
  l.surfaceMaterial.map (fun m => m.props.thickness)

/-- Thickness of a directly built disc layer, if the layer is one (statement
helper). -/
def layerDiscThickness (l : Layer) : Option ℚ :=
  match l.construction with
  | LayerConstruction.sensitiveDisc _ _ _ _ th _ => some th
  | _ => none

/-- Example non-vacuum bulk material. -/
def exMatSilicon : DDMaterial := ⟨"Silicon", 1, 2, 28, 14, 5⟩

/-- Example identity native transform. -/
def exTGeo : TGeoMatrix := ⟨1, 0, 0, 0, 1, 0, 0, 0, 1, 0, 0, 0⟩

/-- The converted example transform. -/
def exTransform : Transform3D := convertTransform exTGeo

/-- Example Extension with an explicit envelope whose two configured margins
differ (envelopeR = 1, envelopeZ = 2). -/
def exExtEnv : Extension :=
  ⟨"XYZ", true, 1, 2, (2, 3), LayerMaterialPos.inner, false, none, none⟩

/-- Example Extension without explicit envelope and without support
material. -/
def exExtNoEnv : Extension :=
  ⟨"XYZ", false, 0, 0, (2, 3), LayerMaterialPos.inner, false, none, none⟩

/-- Example surface-derived proto layer (radial span 5, longitudinal span
100) standing for the opaque external `ProtoLayer` constructor output. -/
def exPl0 : ProtoLayer := ⟨10, 15, 0, 100, (0, 0), (0, 0)⟩

/-- The proto layer `exPl0` after the explicit-envelope branch with
`exExtEnv`. -/
def exPlC6 : ProtoLayer := { exPl0 with envR := (1, 1), envZ := (2, 2) }

/-- A node whose volume has a non-null shape that is not a tube segment and
whose Extension does not request an explicit envelope. -/
def exBadShapeNode : DetElement :=
  DetElement.mk "bad" false exMatSilicon ShapeOpt.nonTube exTGeo
    (some exExtNoEnv) []

/-- A node with a null shape pointer and no explicit envelope. -/
def exNullShapeNode : DetElement :=
  DetElement.mk "nul" false exMatSilicon ShapeOpt.null exTGeo
    (some exExtNoEnv) []

/-- A sensitive disc-pipeline node with explicit envelope and non-vacuum
material. -/
def exDiscNode : DetElement :=
  DetElement.mk "disc" true exMatSilicon (ShapeOpt.tube 1 2 3) exTGeo
    (some exExtEnv) []

/-- Example configuration with empty region lists (used for single-step
evaluations). -/
def exCfg : Config :=
  ⟨[], [], [], BinningType.equidistant, BinningType.equidistant,
   BinningType.equidistant, false, fun _ => exPl0⟩

/-- Configuration handing the wrong-shape node to all three regions. -/
def exCfgBad : Config :=
  ⟨[exBadShapeNode], [exBadShapeNode], [exBadShapeNode],
   BinningType.equidistant, BinningType.equidistant, BinningType.equidistant,
   false, fun _ => exPl0⟩

/-- Configuration handing the null-shape node to the negative region. -/
def exCfgNull : Config :=
  ⟨[exNullShapeNode], [], [], BinningType.equidistant, BinningType.equidistant,
   BinningType.equidistant, false, fun _ => exPl0⟩

/-- C10: for every finite list of booleans, the compile-time predicate
`any_of` evaluates to true if and only if at least one element of the list is
true; in particular it evaluates to false on the empty list. -/
theorem any_of_true_iff_mem :
    (∀ l : List Bool, detail.any_of l = true ↔ ∃ b ∈ l, b = true)
    ∧ detail.any_of [] = false := by
  refine ⟨?_, rfl⟩
  intro l
  induction l with
  | nil => simp [detail.any_of]
  | cons b rest ih =>
    cases b with
    | true => simp [detail.any_of]
    | false => simpa [detail.any_of] using ih

/-- C5: in the disc pipelines the longitudinal extent derived from the
projected shape axis is always returned ordered (min le max), and the
corrective swap of zMin and zMax occurs (the returned pair differs from the
raw projected pair) if and only if the raw projected zMin is strictly greater
than zMax. -/
theorem discZExtent_ordered_swap_iff (t : Transform3D) (dz : ℚ) :
    (discZExtent t dz).1 ≤ (discZExtent t dz).2
    ∧ (discZExtent t dz ≠ discZRaw t dz
        ↔ (discZRaw t dz).1 > (discZRaw t dz).2) := by
  have hdef : discZExtent t dz
      = if (discZRaw t dz).1 > (discZRaw t dz).2
        then ((discZRaw t dz).2, (discZRaw t dz).1) else discZRaw t dz := rfl
  rcases lt_or_le (discZRaw t dz).2 (discZRaw t dz).1 with h | h
  · rw [hdef, if_pos h]
    refine ⟨le_of_lt h, ⟨fun _ => h, fun _ hEq => ?_⟩⟩
    have hfst := congrArg Prod.fst hEq
    exact absurd hfst (ne_of_lt h)
  · rw [hdef, if_neg (not_lt.mpr h)]
    exact ⟨h, by simp [not_lt.mpr h]⟩

/-- C4: the cylinder pipeline computes the layer half-length as
`(minZ - maxZ) * 0.5`, the negative of the conventional `(maxZ - minZ) * 0.5`,
and with support material the three boundary surfaces are concentric cylinders
(same transform) at `minR`, mean radius `(minR + maxR) * 0.5` and `maxR`, all
sharing this same half-length. -/
theorem centralHalfZ_sign_and_concentric (ext : Extension) (pl : ProtoLayer)
    (t : Transform3D) :
    centralHalfZ pl = -((pl.maxZ - pl.minZ) * 0.5)
    ∧ (centralApproach ext pl t).surfaces.map ApproachSurface.cylRadius
        = [some pl.minR, some ((pl.minR + pl.maxR) * 0.5), some pl.maxR]
    ∧ (centralApproach ext pl t).surfaces.map ApproachSurface.cylHalfLength
        = [some (centralHalfZ pl), some (centralHalfZ pl),
           some (centralHalfZ pl)]
    ∧ (centralApproach ext pl t).surfaces.map ApproachSurface.surfTransform
        = [t, t, t] := by
  refine ⟨by unfold centralHalfZ; ring, ?_, ?_, ?_⟩ <;>
    simp [centralApproach, ApproachSurface.cylRadius,
      ApproachSurface.cylHalfLength, ApproachSurface.surfTransform]

/-- C3: when support material is requested, in the negative-disc and in the
central-cylinder support blocks all three boundary surfaces of the matching
family are built and bundled into the returned approach descriptor, and
exactly one of them — the one selected by the material-position enum (inner /
outer / central at indices 0 / 1 / 2 of the negative-disc descriptor, inner /
central / outer at indices 0 / 1 / 2 of the cylinder descriptor) — carries a
non-null material proxy while the other two carry none. -/
theorem supportMaterial_exactly_one_proxy (ext : Extension) (pl : ProtoLayer)
    (t : Transform3D) :
    ((negDiscApproach ext pl t).surfaces.length = 3
      ∧ (negDiscApproach ext pl t).surfaces.map ApproachSurface.familyIsDisc
          = [true, true, true]
      ∧ materialFlags (negDiscApproach ext pl t)
          = [decide (ext.layerMaterialPosition = LayerMaterialPos.inner),
             decide (ext.layerMaterialPosition = LayerMaterialPos.outer),
             decide (ext.layerMaterialPosition = LayerMaterialPos.central)]
      ∧ (materialFlags (negDiscApproach ext pl t)).count true = 1)
    ∧ ((centralApproach ext pl t).surfaces.length = 3
      ∧ (centralApproach ext pl t).surfaces.map ApproachSurface.familyIsDisc
          = [false, false, false]
      ∧ materialFlags (centralApproach ext pl t)
          = [decide (ext.layerMaterialPosition = LayerMaterialPos.inner),
             decide (ext.layerMaterialPosition = LayerMaterialPos.central),
             decide (ext.layerMaterialPosition = LayerMaterialPos.outer)]
      ∧ (materialFlags (centralApproach ext pl t)).count true = 1) := by
  cases hP : ext.layerMaterialPosition <;>
    simp [negDiscApproach, centralApproach, discApproachSurfaces,
      materialFlags, ApproachSurface.material, ApproachSurface.familyIsDisc,
      hP, List.count_cons, List.count_nil]

deriving instance DecidableEq for Except

/-- C6 counterexample: with an explicit envelope whose two configured margins
differ (envelopeR = 1, envelopeZ = 2) the produced proto layer has
envR = (1,1) and envZ = (2,2), refuting the claim that envR equals envZ. -/
theorem explicitEnvelope_envR_ne_envZ_cx :
    centralEnvelope exExtEnv (ShapeOpt.tube 1 2 3) true exPl0 "n"
      = Except.ok exPlC6
    ∧ exPlC6.envR ≠ exPlC6.envZ := by
  exact ⟨rfl, by decide⟩

/-- C6 (amended): for every node whose Extension signals an explicit
envelope, both pipelines set the padding to the configured symmetric margins —
envR = (envelopeR, envelopeR) and envZ = (envelopeZ, envelopeZ), each pair
symmetric in its own configured margin (envR equals envZ only when the two
margins coincide) — regardless of whether sensitive surfaces exist, while
minR, maxR, minZ, maxZ are left as derived from the collected surface list. -/
theorem explicitEnvelope_sets_symmetric_padding (ext : Extension)
    (shape : ShapeOpt) (t : Transform3D) (surfacesEmpty : Bool)
    (pl0 : ProtoLayer) (name : String) (h : ext.buildEnvelope = true) :
    discEnvelope ext shape t surfacesEmpty pl0 name
      = Except.ok { pl0 with envR := (ext.envelopeR, ext.envelopeR),
                             envZ := (ext.envelopeZ, ext.envelopeZ) }
    ∧ centralEnvelope ext shape surfacesEmpty pl0 name
      = Except.ok { pl0 with envR := (ext.envelopeR, ext.envelopeR),
                             envZ := (ext.envelopeZ, ext.envelopeZ) } := by
  constructor <;> simp [discEnvelope, centralEnvelope, h]

/-- C6 witness: the amended claim at a concrete explicit-envelope input (with
and without sensitive surfaces). -/
theorem explicitEnvelope_sets_symmetric_padding_witness :
    discEnvelope exExtEnv (ShapeOpt.tube 1 2 3) exTransform false exPl0 "n"
      = Except.ok exPlC6
    ∧ centralEnvelope exExtEnv (ShapeOpt.tube 1 2 3) false exPl0 "n"
      = Except.ok exPlC6 :=
  explicitEnvelope_sets_symmetric_padding exExtEnv (ShapeOpt.tube 1 2 3)
    exTransform false exPl0 "n" rfl

/-- C7: for a tube-segment node without explicit envelope, if no sensitive
surfaces were collected the proto layer adopts the unit-converted shape
extents exactly with zero padding (cylinder pipeline: minR, maxR, -dz, dz;
disc pipelines: minR, maxR and the ordered projected longitudinal extent);
otherwise the surface-derived extents are kept and each padding component is
the absolute difference between shape extent and surface extent. -/
theorem tubeShape_extent_and_padding (ext : Extension) (rMinN rMaxN dzN : ℚ)
    (pl0 : ProtoLayer) (name : String) (t : Transform3D)
    (h : ext.buildEnvelope = false) :
    centralEnvelope ext (ShapeOpt.tube rMinN rMaxN dzN) true pl0 name
      = Except.ok { minR := rMinN * unitsCm, maxR := rMaxN * unitsCm,
                    minZ := -(dzN * unitsCm), maxZ := dzN * unitsCm,
                    envR := (0, 0), envZ := (0, 0) }
    ∧ centralEnvelope ext (ShapeOpt.tube rMinN rMaxN dzN) false pl0 name
      = Except.ok { pl0 with
          envZ := (fabs (-(dzN * unitsCm) - pl0.minZ), fabs (dzN * unitsCm - pl0.maxZ)),
          envR := (fabs (rMinN * unitsCm - pl0.minR),
                   fabs (rMaxN * unitsCm - pl0.maxR)) }
    ∧ discEnvelope ext (ShapeOpt.tube rMinN rMaxN dzN) t true pl0 name
      = Except.ok { minR := rMinN * unitsCm, maxR := rMaxN * unitsCm,
                    minZ := (discZExtent t dzN).1,
                    maxZ := (discZExtent t dzN).2,
                    envR := (0, 0), envZ := (0, 0) }
    ∧ discEnvelope ext (ShapeOpt.tube rMinN rMaxN dzN) t false pl0 name
      = Except.ok { pl0 with
          envZ := (fabs ((discZExtent t dzN).1 - pl0.minZ),
                   fabs ((discZExtent t dzN).2 - pl0.maxZ)),
          envR := (fabs (rMinN * unitsCm - pl0.minR),
                   fabs (rMaxN * unitsCm - pl0.maxR)) } := by
  refine ⟨?_, ?_, ?_, ?_⟩ <;> simp [centralEnvelope, discEnvelope, h]

/-- C7 witness: a central tube-segment node with converted extents rMin = 10,
rMax = 20, dz = 50 and no sensitive surfaces yields exactly minR = 10,
maxR = 20, minZ = -50, maxZ = 50 with zero padding. -/
theorem tubeShape_extent_and_padding_witness :
    centralEnvelope exExtNoEnv (ShapeOpt.tube 1 2 5) true exPl0 "n"
      = Except.ok { minR := 10, maxR := 20, minZ := -50, maxZ := 50,
                    envR := (0, 0), envZ := (0, 0) } := by
  have h := (tubeShape_extent_and_padding exExtNoEnv 1 2 5 exPl0 "n"
    exTransform rfl).1
  norm_num [unitsCm] at h
  exact h

/-- C2 counterexample: a sensitive disc-pipeline node with non-vacuum bulk
material, radial span 5 and longitudinal span 100 produces a layer whose
resolved material thickness is the radial span 5, not the longitudinal span
100 that the layer itself uses as its disc thickness — refuting the claim
that for disc layers the material thickness is the longitudinal span. -/
theorem discMaterial_radial_thickness_cx :
    (negDiscStep exCfg exDiscNode).map layerMatThickness
      = Except.ok (some 5)
    ∧ (negDiscStep exCfg exDiscNode).map layerDiscThickness
      = Except.ok (some 100)
    ∧ (5 : ℚ) ≠ 100 := by
  have hstep : negDiscStep exCfg exDiscNode
      = Except.ok ⟨LayerConstruction.sensitiveDisc exTransform 10 15
            (createSensitiveSurface false exDiscNode true defaultAxes)
            (fabs (100 - 0)) none,
          resolveMaterial exMatSilicon 10 15⟩ := rfl
  have hiq : iequals "Silicon" "vacuum" = false := rfl
  refine ⟨?_, ?_, by norm_num⟩
  · rw [hstep]
    simp only [Except.map, layerMatThickness, resolveMaterial, exMatSilicon,
      hiq, Bool.false_eq_true, if_false, Option.map_some]
    norm_num [fabs]
  · rw [hstep]
    simp only [Except.map, layerDiscThickness]
    norm_num [fabs]

/-- C2 (amended): the bulk material resolution shared by all three pipelines
leaves the layer material null exactly when the native material name
case-insensitively equals "vacuum", and otherwise produces a homogeneous
material whose thickness is the absolute radial span |maxR - minR| of the
proto layer — in the disc pipelines as well as the cylinder pipeline (not the
longitudinal span); each pipeline step writes exactly this resolution of its
own proto layer as the layer's final surface material. -/
theorem bulkMaterial_vacuum_and_thickness (mat : DDMaterial) (minR maxR : ℚ)
    (cfg : Config) (d : DetElement) :
    ((resolveMaterial mat minR maxR).map (fun m => m.props.thickness)
        = if iequals mat.name "vacuum" then none else some (fabs (maxR - minR)))
    ∧ (negDiscStep cfg d).map Layer.surfaceMaterial
        = (discPlOf cfg d).map
            (fun pl => resolveMaterial d.material pl.minR pl.maxR)
    ∧ (centralStep cfg d).map Layer.surfaceMaterial
        = (centralPlOf cfg d).map
            (fun pl => resolveMaterial d.material pl.minR pl.maxR)
    ∧ (posDiscStep cfg d).map Layer.surfaceMaterial
        = (discPlOf cfg d).map
            (fun pl => resolveMaterial d.material pl.minR pl.maxR) := by
  refine ⟨?_, ?_, ?_, ?_⟩
  · by_cases h : iequals mat.name "vacuum" <;>
      simp [resolveMaterial, h]
  · cases hE : getExtension d with
    | error e => simp [negDiscStep, discPlOf, hE, Except.map]
    | ok ext =>
      simp only [negDiscStep, discPlOf, hE]
      cases hEnv : discEnvelope ext d.shape (convertTransform d.trans)
          (collectSensitive cfg.buildDigitizationModules d ext.axes).isEmpty
          (cfg.protoFromSurfaces
            (collectSensitive cfg.buildDigitizationModules d ext.axes))
          d.name <;>
        simp [hEnv, Except.map, Layer.surfaceMaterial]
  · cases hE : getExtension d with
    | error e => simp [centralStep, centralPlOf, hE, Except.map]
    | ok ext =>
      simp only [centralStep, centralPlOf, hE]
      cases hEnv : centralEnvelope ext d.shape
          (collectSensitive cfg.buildDigitizationModules d ext.axes).isEmpty
          (cfg.protoFromSurfaces
            (collectSensitive cfg.buildDigitizationModules d ext.axes))
          d.name <;>
        simp [hEnv, Except.map, Layer.surfaceMaterial]
  · cases hE : getExtension d with
    | error e => simp [posDiscStep, discPlOf, hE, Except.map]
    | ok ext =>
      simp only [posDiscStep, discPlOf, hE]
      cases hEnv : discEnvelope ext d.shape (convertTransform d.trans)
          (collectSensitive cfg.buildDigitizationModules d ext.axes).isEmpty
          (cfg.protoFromSurfaces
            (collectSensitive cfg.buildDigitizationModules d ext.axes))
          d.name <;>
        simp [hEnv, Except.map, Layer.surfaceMaterial]

/-- C1 (code evaluation at the failing input): a node whose non-null native
shape is not a tube segment and whose Extension does not signal an explicit
envelope drives every region pipeline into the log-then-null-dereference path
(`undefinedBehaviour`), not into the thrown `std::logic_error` abort — which
the code reserves for a node with no shape at all, as the final conjunct
shows. -/
theorem wrongShape_pipelines_undefined_eval :
    negativeLayersRun exCfgBad
      = Except.error PipelineError.undefinedBehaviour
    ∧ centralLayersRun exCfgBad
      = Except.error PipelineError.undefinedBehaviour
    ∧ positiveLayersRun exCfgBad
      = Except.error PipelineError.undefinedBehaviour
    ∧ negativeLayersRun exCfgNull
      = Except.error (PipelineError.logicError (noShapeMsg "nul")) := by
  refine ⟨rfl, rfl, rfl, rfl⟩

/-- Unfolding lemma: collecting over a node walks its children. -/
theorem collectSensitive_eq_children (buildDigi : Bool) (c : DetElement)
    (axes : String) :
    collectSensitive buildDigi c axes
      = collectSensitiveList buildDigi c.children axes := by
  cases c
  rfl

/-- Unfolding lemma: the descendants of a node are the depth-first flattening
of its children. -/
theorem descendants_eq_children (c : DetElement) :
    descendants c = descendantsList c.children := by
  cases c
  rfl

/-- The collector over a forest returns exactly the sensitive elements of the
depth-first descendant list, as surfaces (strong induction on the forest
size). -/
theorem collectSensitiveList_dfs (buildDigi : Bool) (axes : String) :
    ∀ (n : Nat) (l : List DetElement), sizeOf l ≤ n →
      collectSensitiveList buildDigi l axes
        = ((descendantsList l).filter (fun c => c.sensitive)).map
            (fun c => createSensitiveSurface buildDigi c false axes) := by
  intro n
  induction n with
  | zero =>
    intro l h
    cases l with
    | nil => rfl
    | cons c rest =>
      exfalso
      simp only [List.cons.sizeOf_spec] at h
      omega
  | succ n ih =>
    intro l h
    cases l with
    | nil => rfl
    | cons c rest =>
      simp only [List.cons.sizeOf_spec] at h
      have hrest : sizeOf rest ≤ n := by omega
      have hchild : sizeOf c.children ≤ n := by
        cases c with
        | mk nm sv mt sh tr e cs =>
          simp only [DetElement.mk.sizeOf_spec] at h
          simp only [DetElement.children]
          omega
      have hstep : collectSensitiveList buildDigi (c :: rest) axes
          = (if c.sensitive
              then [createSensitiveSurface buildDigi c false axes] else [])
            ++ collectSensitive buildDigi c axes
            ++ collectSensitiveList buildDigi rest axes := rfl
      have hdesc : descendantsList (c :: rest)
          = c :: (descendants c ++ descendantsList rest) := rfl
      rw [hstep, hdesc, collectSensitive_eq_children,
        descendants_eq_children, ih _ hchild, ih _ hrest]
      by_cases hs : c.sensitive = true <;>
        simp [hs, List.filter_cons, List.filter_append, List.map_append,
          descendants_eq_children]

/-- C8: for every node tree, the recursive collector returns exactly the
sensitive descendants (any depth, non-sensitive nodes skipped but still
descended into — including the children of sensitive nodes) in depth-first,
native child order, one surface per sensitive descendant; hence a tree with N
sensitive descendants yields exactly N surfaces, and a childless node (empty
descendant list) contributes nothing. -/
theorem collectSensitive_dfs_spec (buildDigi : Bool) (d : DetElement)
    (axes : String) :
    collectSensitive buildDigi d axes
      = ((descendants d).filter (fun c => c.sensitive)).map
          (fun c => createSensitiveSurface buildDigi c false axes)
    ∧ (collectSensitive buildDigi d axes).length
      = (descendants d).countP (fun c => c.sensitive) := by
  have hmain : collectSensitive buildDigi d axes
      = ((descendants d).filter (fun c => c.sensitive)).map
          (fun c => createSensitiveSurface buildDigi c false axes) := by
    rw [collectSensitive_eq_children, descendants_eq_children]
    exact collectSensitiveList_dfs buildDigi axes (sizeOf d.children)
      d.children le_rfl
  refine ⟨hmain, ?_⟩
  rw [hmain, List.length_map, List.countP_eq_length_filter]

/-- The positive-disc approach descriptor is the negative-disc one with the
last two surfaces swapped. -/
theorem posDiscApproach_eq_swap (ext : Extension) (pl : ProtoLayer)
    (t : Transform3D) :
    posDiscApproach ext pl t = (negDiscApproach ext pl t).swapLastTwo := rfl

/-- C9: the negative and positive disc pipelines bundle the three approach
surfaces in different orders — the negative one appends (inner, outer,
central), the positive one (inner, central, outer) — and apart from this
ordering the two per-node constructions are the same function of their
inputs: the positive step equals the negative step with the last two approach
surfaces swapped. -/
theorem discPipelines_equal_mod_approach_order (cfg : Config) (d : DetElement)
    (ext : Extension) (pl : ProtoLayer) (t : Transform3D) :
    (∃ i o c, (negDiscApproach ext pl t).surfaces = [i, o, c]
        ∧ (posDiscApproach ext pl t).surfaces = [i, c, o])
    ∧ posDiscStep cfg d
        = (negDiscStep cfg d).map
            (Layer.mapApproach ApproachDescriptor.swapLastTwo) := by
  constructor
  · exact ⟨(discApproachSurfaces ext pl t).1,
      (discApproachSurfaces ext pl t).2.1,
      (discApproachSurfaces ext pl t).2.2, rfl, rfl⟩
  · cases hE : getExtension d with
    | error e => simp [posDiscStep, negDiscStep, hE, Except.map]
    | ok ext2 =>
      simp only [posDiscStep, negDiscStep, hE]
      cases hEnv : discEnvelope ext2 d.shape (convertTransform d.trans)
          (collectSensitive cfg.buildDigitizationModules d ext2.axes).isEmpty
          (cfg.protoFromSurfaces
            (collectSensitive cfg.buildDigitizationModules d ext2.axes))
          d.name with
      | error e => simp [hEnv, Except.map]
      | ok pl2 =>
        simp only [hEnv, Except.map]
        cases hS : d.sensitive <;> cases hM : ext2.hasSupportMaterial <;>
          simp [hS, hM, Layer.mapApproach, LayerConstruction.mapApproach,
            posDiscApproach_eq_swap, Option.map]

end Acts
